import Mathlib

/-!
Shallow embedding of the navigation and fetch engine of gbrowse
(src/main.rs). Pure data is modelled directly; the external collaborators
(the gmi transport, the gmi url parser, the url crate parser and the
gemtext parser) are opaque to the engine and are passed in as function
parameters, with the transport represented by the finite script of
responses it would return to the successive requests of one fetch.
-/

/-- Parsed gemtext block, mirroring the gmi crate type gmi::gemtext::GemtextNode
exactly as it is consumed by the match in Gbrowse::update (src/main.rs lines
177 to 255). -/
inductive GemtextNode where
  | Text (text : String)
  | Link (url : String) (label : Option String)
  | Heading (text : String)
  | SubHeading (text : String)
  | SubSubHeading (text : String)
  | ListItem (text : String)
  | Blockquote (text : String)
  | Preformatted (text : String) (alt : Option String)
  | EmptyLine
deriving DecidableEq

/-- Validated address produced by gmi::url::Url::try_from. The engine never
inspects its structure, it only threads it through to the transport, so it is
modelled as an opaque wrapper around the text it was parsed from. -/
structure Url where
  raw : String
deriving DecidableEq

/-- Status of a gmi protocol response as matched in make_request (src/main.rs
lines 276 to 280): the code distinguishes Redirect, Success and a catch-all
arm that debug-formats any other status, so the other statuses are carried
here by their debug rendering. -/
inductive StatusCode where
  | success (code : Nat)
  | redirect (code : Nat)
  | other (dbg : String)
deriving DecidableEq

/-- One transport response: status plus meta line plus raw payload bytes,
mirroring the gmi response consumed by make_request. Bytes are Nat values
below 256. -/
structure Response where
  status : StatusCode
  meta : String
  data : List Nat
deriving DecidableEq

/-- Outcome of the embedded make_request. The Rust function returns
Result of Vec GemtextNode or String; in addition the embedding distinguishes
panic (the unwrap on a redirect target that fails to parse, src/main.rs line
277) and pending (the response script ran out while the loop would have
issued a further request). -/
inductive FetchResult where
  | success (nodes : List GemtextNode)
  | failure (msg : String)
  | panic
  | pending
deriving DecidableEq

/-- Continuation byte test of the Rust core UTF-8 validator: a byte in the
range 128 to 191. -/
def utf8Cont (b : Nat) : Bool :=
  decide (128 ≤ b ∧ b ≤ 191)

/-- UTF-8 decoder faithful to Rust core str validation (run_utf8_validation):
returns the decoded characters, or the pair of the index at which the invalid
sequence starts together with the length of the invalid sequence (none when
the input ended in the middle of a sequence). The index argument counts the
bytes already consumed. -/
def utf8Decode : List Nat → Nat → Except (Nat × Option Nat) (List Char)
  | [], _ => Except.ok []
  | b0 :: rest, i =>
    if b0 < 128 then
      (utf8Decode rest (i + 1)).map (fun cs => Char.ofNat b0 :: cs)
    else if b0 < 194 then
      Except.error (i, some 1)
    else if b0 < 224 then
      match rest with
      | [] => Except.error (i, none)
      | b1 :: rest1 =>
        if utf8Cont b1 then
          (utf8Decode rest1 (i + 2)).map
            (fun cs => Char.ofNat ((b0 % 32) * 64 + b1 % 64) :: cs)
        else Except.error (i, some 1)
    else if b0 < 240 then
      match rest with
      | [] => Except.error (i, none)
      | b1 :: rest1 =>
        if (b0 = 224 ∧ 160 ≤ b1 ∧ b1 ≤ 191) ∨
            (225 ≤ b0 ∧ b0 ≤ 236 ∧ 128 ≤ b1 ∧ b1 ≤ 191) ∨
            (b0 = 237 ∧ 128 ≤ b1 ∧ b1 ≤ 159) ∨
            (238 ≤ b0 ∧ b0 ≤ 239 ∧ 128 ≤ b1 ∧ b1 ≤ 191) then
          match rest1 with
          | [] => Except.error (i, none)
          | b2 :: rest2 =>
            if utf8Cont b2 then
              (utf8Decode rest2 (i + 3)).map
                (fun cs => Char.ofNat ((b0 % 16) * 4096 + (b1 % 64) * 64 + b2 % 64) :: cs)
            else Except.error (i, some 2)
        else Except.error (i, some 1)
    else if b0 < 245 then
      match rest with
      | [] => Except.error (i, none)
      | b1 :: rest1 =>
        if (b0 = 240 ∧ 144 ≤ b1 ∧ b1 ≤ 191) ∨
            (241 ≤ b0 ∧ b0 ≤ 243 ∧ 128 ≤ b1 ∧ b1 ≤ 191) ∨
            (b0 = 244 ∧ 128 ≤ b1 ∧ b1 ≤ 143) then
          match rest1 with
          | [] => Except.error (i, none)
          | b2 :: rest2 =>
            if utf8Cont b2 then
              match rest2 with
              | [] => Except.error (i, none)
              | b3 :: rest3 =>
                if utf8Cont b3 then
                  (utf8Decode rest3 (i + 4)).map
                    (fun cs =>
                      Char.ofNat ((b0 % 8) * 262144 + (b1 % 64) * 4096 +
                        (b2 % 64) * 64 + b3 % 64) :: cs)
                else Except.error (i, some 3)
            else Except.error (i, some 2)
        else Except.error (i, some 1)
    else
      Except.error (i, some 1)

/-- Rendering of a Rust std Utf8Error by its Display implementation. -/
def utf8ErrorMsg : Nat × Option Nat → String
  | (i, some n) =>
    "invalid utf-8 sequence of " ++ toString n ++ " bytes from index " ++ toString i
  | (i, none) =>
    "incomplete utf-8 byte sequence from index " ++ toString i

/-- Embedding of str::from_utf8 as used at src/main.rs line 283: the decoded
text, or the Display rendering of the Utf8Error. -/
def from_utf8 (data : List Nat) : Except String String :=
  match utf8Decode data 0 with
  | Except.ok cs => Except.ok (String.mk cs)
  | Except.error e => Except.error (utf8ErrorMsg e)

/-- Embedding of make_request (src/main.rs lines 267 to 291). The opaque
collaborators are parameters: tf is gmi Url::try_from (error carries the
Display text of the parse error), parse is gmi gemtext::parse_gemtext, and
the transport is a script listing, in order, what request::make_request
would return to each successive request of this fetch (error carries the
Display text of the transport error). The second component of the result
counts the transport requests issued; pending means the script was exhausted
while the loop was about to issue another request. -/
def make_request (tf : String → Except String Url)
    (parse : String → List GemtextNode) :
    List (Except String Response) → Url → FetchResult × Nat
  | [], _ => (FetchResult.pending, 0)
  | Except.error e :: _, _ =>
    (FetchResult.failure ("Request Error: " ++ e), 1)
  | Except.ok r :: rest, _ =>
    match r.status with
    | StatusCode.redirect _ =>
      match tf r.meta with
      | Except.ok u2 =>
        let p := make_request tf parse rest u2
        (p.fst, p.snd + 1)
      | Except.error _ => (FetchResult.panic, 1)
    | StatusCode.success _ =>
      match from_utf8 r.data with
      | Except.ok text => (FetchResult.success (parse text), 1)
      | Except.error e =>
        (FetchResult.failure ("Text Formatting Error: " ++ e), 1)
    | StatusCode.other dbg =>
      (FetchResult.failure ("Error: unknown status code: " ++ dbg), 1)

/-- Default starting page constant of src/main.rs line 27. -/
def DEFAULT_STARTING_PAGE : String := "gemini://gemini.circumlunar.space"

deriving instance DecidableEq for Except

/-- The Gbrowse session state (src/main.rs lines 45 to 53). The mpsc channel
pair tx and rx is modelled by chan, the queue of results already delivered to
the channel and not yet received, together with senderAlive, false only when
every sending half has been dropped (the struct itself holds tx, so this stays
true for the lifetime of the session). spawned records the addresses handed to
background workers, one entry per thread::spawn. -/
structure Gbrowse where
  sites : List String
  content : Option (List GemtextNode)
  error : Option String
  loading : Bool
  url : String
  chan : List (Except String (List GemtextNode))
  senderAlive : Bool
  spawned : List Url
deriving DecidableEq

/-- Embedding of Gbrowse::new (src/main.rs lines 56 to 70); page is the
optional command line starting page. -/
def Gbrowse.new (page : Option String) : Gbrowse :=
  { sites := []
    content := none
    error := none
    loading := false
    url := page.getD DEFAULT_STARTING_PAGE
    chan := []
    senderAlive := true
    spawned := [] }

/-- Embedding of Gbrowse::change_site (src/main.rs lines 72 to 101). tf is
gmi Url::try_from; its error value is the Display text interpolated into the
message. The spawn of the worker thread is recorded by appending the parsed
address to spawned; the eventual send of the result is a separate event on
chan. -/
def Gbrowse.change_site (tf : String → Except String Url) (s : Gbrowse)
    (url : String) (moving_back : Bool) : Gbrowse :=
  let s0 := { s with error := none, content := none, url := url }
  match tf url with
  | Except.error err =>
    { s0 with error := some ("Incorrectly formatted url: " ++ err) }
  | Except.ok u =>
    let s1 := if moving_back then s0 else { s0 with sites := s0.sites ++ [s0.url] }
    { s1 with loading := true, spawned := s1.spawned ++ [u] }

/-- Display text of the Disconnected variant of std mpsc TryRecvError. -/
def disconnectedText : String := "receiving on an empty and disconnected channel"

/-- Embedding of Gbrowse::get_content (src/main.rs lines 103 to 126), the
non-blocking poll: try_recv returns the first queued message if any; on an
empty queue it is Empty while a sender is alive (no state change) and
Disconnected otherwise. -/
def Gbrowse.get_content (s : Gbrowse) : Option (List GemtextNode) × Gbrowse :=
  match s.chan with
  | msg :: rest =>
    match msg with
    | Except.ok content => (some content, { s with chan := rest, loading := false })
    | Except.error err =>
      (none, { s with chan := rest, error := some err, loading := false })
  | [] =>
    if s.senderAlive then (none, s)
    else
      (none, { s with
        error := some ("Error Recieving From Other Thread: " ++ disconnectedText)
        loading := false })

/-- Embedding of the back button handler (src/main.rs lines 142 to 149): shown
only when more than one site is stored; on a click it pops the history and, if
an entry remains, navigates to the last remaining entry with moving_back set. -/
def Gbrowse.back_click (tf : String → Except String Url) (s : Gbrowse) : Gbrowse :=
  if 1 < s.sites.length then
    let s2 := { s with sites := s.sites.dropLast }
    match s2.sites.getLast? with
    | some before => Gbrowse.change_site tf s2 before true
    | none => s2
  else s

/-- Splits a character list at every slash, keeping empty pieces. -/
def splitSlash : List Char → List Char → List String
  | [], acc => [String.mk acc.reverse]
  | c :: rest, acc =>
    if c = '/' then String.mk acc.reverse :: splitSlash rest []
    else splitSlash rest (c :: acc)

/-- True when the text begins with a slash: Unix Path::is_absolute. -/
def leadingSlash (s : String) : Bool :=
  match s.toList with
  | c :: _ => c = '/'
  | [] => false

/-- Normal components of a Unix path text: the pieces between slashes, with
empty pieces and the current-directory piece dropped, as in the Components
iterator of Rust std. -/
def pathSegments (s : String) : List String :=
  (splitSlash s.toList []).filter (fun seg => seg != "" && seg != ".")

/-- Unix PathBuf modelled by its root flag and its normal components. -/
structure PathBuf where
  absolute : Bool
  segments : List String
deriving DecidableEq

/-- Embedding of PathBuf::from on a path text. -/
def PathBuf.fromString (s : String) : PathBuf :=
  { absolute := leadingSlash s, segments := pathSegments s }

/-- Embedding of PathBuf::pop: truncate to the parent, a no-op on a bare root
or on an empty path. -/
def PathBuf.pop (p : PathBuf) : PathBuf :=
  { p with segments := p.segments.dropLast }

/-- Embedding of PathBuf::push: an absolute argument replaces the whole path,
a relative one is appended. -/
def PathBuf.push (p q : PathBuf) : PathBuf :=
  if q.absolute then q else { p with segments := p.segments ++ q.segments }

/-- Extension of one file name, after Rust Path::extension on its file_name:
the part after the last dot, provided the part before that dot is nonempty;
the parent-directory name has no extension. -/
def fileExtension (name : String) : Option String :=
  if name = ".." then none
  else
    let rev := name.toList.reverse
    let ext := rev.takeWhile (fun c => c != '.')
    match rev.drop ext.length with
    | [] => none
    | _ :: stem => if stem = [] then none else some (String.mk ext.reverse)

/-- Embedding of PathBuf::extension: the extension of the last component. -/
def PathBuf.extension (p : PathBuf) : Option String :=
  match p.segments.getLast? with
  | none => none
  | some name => fileExtension name

/-- Joins components with slashes. -/
def joinSlash : List String → String
  | [] => ""
  | [s] => s
  | s :: rest => s ++ "/" ++ joinSlash rest

/-- Rendering of the modelled PathBuf back to text, as Path::to_str. -/
def PathBuf.toText (p : PathBuf) : String :=
  (if p.absolute then ("/") else ("")) ++ joinSlash p.segments

/-- The path arithmetic of the relative-link branch of Gbrowse::update
(src/main.rs lines 200 to 219): the context path of the current url and the
clicked target are both read into PathBuf values; an absolute target replaces
the context path; otherwise, when the target has the gmi extension the last
context segment is popped first, and then the target is appended. -/
def resolveRelativePathBuf (ctxPath r : String) : PathBuf :=
  let new_path := PathBuf.fromString ctxPath
  let addition := PathBuf.fromString r
  if addition.absolute then addition
  else
    (if addition.extension = some ("gmi") then new_path.pop else new_path).push addition

/-- The resolved path as the text handed to Url::set_path. -/
def resolveRelativePath (ctxPath r : String) : String :=
  (resolveRelativePathBuf ctxPath r).toText

/-- Parsed url of the url crate as used in the link handler: scheme, host and
path, serialized as scheme colon slash slash host path. -/
structure UrlRec where
  scheme : String
  host : String
  path : String
deriving DecidableEq

/-- Serialization of the modelled url crate value, Url::as_str. -/
def UrlRec.toText (u : UrlRec) : String := u.scheme ++ "://" ++ u.host ++ u.path

/-- What a click on a link resolves to: an external open, a navigation through
change_site with moving_back false, no action (a qualified non-web non-gemini
scheme), or the panic of the unwrap at src/main.rs line 201. -/
inductive ClickOutcome where
  | openExternal (target : String)
  | navigate (target : String)
  | noop
  | panic
deriving DecidableEq

/-- Embedding of the link click handler of Gbrowse::update (src/main.rs lines
186 to 221). up is url::Url::parse. A target that parses fully is dispatched
on its scheme; otherwise the current url field is parsed (unwrap: failure is a
panic) and the target is resolved against its path. -/
def link_click (up : String → Option UrlRec) (s : Gbrowse) (url : String) :
    ClickOutcome :=
  match up url with
  | some parsed =>
    if parsed.scheme = "http" ∨ parsed.scheme = "https" then
      ClickOutcome.openExternal url
    else if parsed.scheme = "gemini" then
      ClickOutcome.navigate url
    else ClickOutcome.noop
  | none =>
    match up s.url with
    | none => ClickOutcome.panic
    | some ctx =>
      ClickOutcome.navigate
        (UrlRec.toText { ctx with path := resolveRelativePath ctx.path url })

/-- The invariant of claim C10: every address stored in the history parses
under the gmi url parser in use. -/
def UrlInv (tf : String → Except String Url) (s : Gbrowse) : Prop :=
  ∀ x ∈ s.sites, ∃ u, tf x = Except.ok u

/-- Concrete stand-in for gmi Url::try_from in witnesses: accepts exactly the
texts with the gemini scheme prefix. -/
def demoTryFrom (s : String) : Except String Url :=
  if ("gemini://".toList).isPrefixOf s.toList then Except.ok { raw := s }
  else Except.error ("url must have a scheme")

/-- Splits host from path at the first slash. -/
def splitHostPath : List Char → List Char → String × String
  | [], acc => (String.mk acc.reverse, "")
  | c :: rest, acc =>
    if c = '/' then (String.mk acc.reverse, String.mk (c :: rest))
    else splitHostPath rest (c :: acc)

/-- Concrete stand-in for url::Url::parse in witnesses: parses the gemini,
http and https schemes into scheme, host and path, and rejects everything
else, matching the url crate on such simple inputs. -/
def demoUrlParse (s : String) : Option UrlRec :=
  if ("gemini://".toList).isPrefixOf s.toList then
    let hp := splitHostPath (s.toList.drop 9) []
    some { scheme := "gemini", host := hp.fst, path := hp.snd }
  else if ("https://".toList).isPrefixOf s.toList then
    let hp := splitHostPath (s.toList.drop 8) []
    some { scheme := "https", host := hp.fst, path := hp.snd }
  else if ("http://".toList).isPrefixOf s.toList then
    let hp := splitHostPath (s.toList.drop 7) []
    some { scheme := "http", host := hp.fst, path := hp.snd }
  else none

/-- Concrete stand-in for gemtext::parse_gemtext in witnesses. -/
def demoParseGemtext (text : String) : List GemtextNode :=
  [GemtextNode.Text text]

/-- A concrete session state used by witnesses. -/
def demoGbrowse : Gbrowse :=
  { sites := ["gemini://example.org/"]
    content := none
    error := none
    loading := true
    url := "gemini://example.org/"
    chan := []
    senderAlive := true
    spawned := [] }

/-- A concrete redirect response used by witnesses. -/
def demoRedirectResponse : Response :=
  { status := StatusCode.redirect 31
    meta := "gemini://example.org/new.gmi"
    data := [] }

/-- A concrete success response used by witnesses, carrying the UTF-8 bytes
of a small heading line. -/
def demoSuccessResponse : Response :=
  { status := StatusCode.success 20
    meta := "text/gemini"
    data := [35, 32, 72, 101, 108, 108, 111] }

/-- A concrete redirect response whose meta text has no scheme. -/
def demoBadMetaResponse : Response :=
  { status := StatusCode.redirect 31
    meta := "no scheme here"
    data := [] }

/-- A concrete response with a status that is neither Success nor Redirect,
carried by its debug rendering. -/
def demoOtherResponse : Response :=
  { status := StatusCode.other ("NotFound(51)")
    meta := ""
    data := [] }

/-- A concrete success response whose payload is one stray continuation
byte, hence not valid UTF-8. -/
def demoBadUtf8Response : Response :=
  { status := StatusCode.success 20
    meta := ""
    data := [255] }

/-- A concrete parsed address used by witnesses. -/
def demoUrl : Url := { raw := "gemini://example.org/" }

/-- Equation for change_site when the url text fails to parse: the message is
reported, but content was already cleared and the url field already
overwritten before the parse was attempted. -/
theorem change_site_eq_error (tf : String → Except String Url) (s : Gbrowse)
    (url : String) (mb : Bool) (e : String) (h : tf url = Except.error e) :
    Gbrowse.change_site tf s url mb =
      { s with
        content := none
        url := url
        error := some ("Incorrectly formatted url: " ++ e) } := by
  simp [Gbrowse.change_site, h]

/-- Equation for change_site on a parseable url with moving_back set: no push
onto sites. -/
theorem change_site_eq_ok_back (tf : String → Except String Url) (s : Gbrowse)
    (url : String) (u : Url) (h : tf url = Except.ok u) :
    Gbrowse.change_site tf s url true =
      { s with
        content := none
        error := none
        url := url
        loading := true
        spawned := s.spawned ++ [u] } := by
  simp [Gbrowse.change_site, h]

/-- Equation for change_site on a parseable url with moving_back unset: the
raw text just written to the url field is pushed onto sites. -/
theorem change_site_eq_ok_fwd (tf : String → Except String Url) (s : Gbrowse)
    (url : String) (u : Url) (h : tf url = Except.ok u) :
    Gbrowse.change_site tf s url false =
      { s with
        content := none
        error := none
        url := url
        sites := s.sites ++ [url]
        loading := true
        spawned := s.spawned ++ [u] } := by
  simp [Gbrowse.change_site, h]

/-- get_content never touches the history. -/
theorem get_content_sites_eq (s : Gbrowse) :
    (Gbrowse.get_content s).snd.sites = s.sites := by
  unfold Gbrowse.get_content
  cases hc : s.chan with
  | nil => by_cases hs : s.senderAlive <;> simp [hs]
  | cons m rest => cases m <;> simp

/-- change_site preserves the history invariant for every parser, target and
direction. -/
theorem urlInv_change_site (tf : String → Except String Url) (s : Gbrowse)
    (raw : String) (mb : Bool) (h : UrlInv tf s) :
    UrlInv tf (Gbrowse.change_site tf s raw mb) := by
  intro x hx
  cases htf : tf raw with
  | error e =>
    rw [change_site_eq_error tf s raw mb e htf] at hx
    exact h x hx
  | ok u =>
    cases mb with
    | true =>
      rw [change_site_eq_ok_back tf s raw u htf] at hx
      exact h x hx
    | false =>
      rw [change_site_eq_ok_fwd tf s raw u htf] at hx
      simp only at hx
      rcases List.mem_append.mp hx with h2 | h2
      · exact h x h2
      · exact ⟨u, by rw [List.mem_singleton.mp h2]; exact htf⟩

/-- C1: for every redirect chain of N redirects (N at least 0), each redirect
target accepted by the url parser, followed by one Success response whose
payload decodes as UTF-8, make_request issues exactly N plus 1 transport
requests and returns the success result holding the parse of the final
payload text. -/
theorem C1_redirect_chain_success (tf : String → Except String Url)
    (parse : String → List GemtextNode) :
    ∀ (reds : List Response) (url : Url) (fin : Response) (k : Nat) (text : String),
      (∀ r ∈ reds, (∃ c, r.status = StatusCode.redirect c) ∧
        ∃ u, tf r.meta = Except.ok u) →
      fin.status = StatusCode.success k →
      from_utf8 fin.data = Except.ok text →
      make_request tf parse (reds.map Except.ok ++ [Except.ok fin]) url =
        (FetchResult.success (parse text), reds.length + 1) := by
  intro reds
  induction reds with
  | nil =>
    intro url fin k text hreds hst hdec
    simp [make_request, hst, hdec]
  | cons r tl ih =>
    intro url fin k text hreds hst hdec
    obtain ⟨⟨c, hc⟩, u, hu⟩ := hreds r (by simp)
    have htl : ∀ r2 ∈ tl, (∃ c2, r2.status = StatusCode.redirect c2) ∧
        ∃ u2, tf r2.meta = Except.ok u2 := by
      intro r2 hr2
      exact hreds r2 (List.mem_cons_of_mem r hr2)
    simp [make_request, hc, hu, ih u fin k text htl hst hdec]

/-- Witness for C1 at a one-redirect chain followed by a success carrying the
UTF-8 bytes of a small heading line. -/
theorem C1_redirect_chain_success_witness :
    (∀ r ∈ [demoRedirectResponse],
      (∃ c, r.status = StatusCode.redirect c) ∧
        ∃ u, demoTryFrom r.meta = Except.ok u) ∧
    demoSuccessResponse.status = StatusCode.success 20 ∧
    from_utf8 demoSuccessResponse.data = Except.ok ("# Hello") ∧
    make_request demoTryFrom demoParseGemtext
      [Except.ok demoRedirectResponse, Except.ok demoSuccessResponse] demoUrl =
      (FetchResult.success (demoParseGemtext ("# Hello")), 2) := by
  have hreds : ∀ r ∈ [demoRedirectResponse],
      (∃ c, r.status = StatusCode.redirect c) ∧
        ∃ u, demoTryFrom r.meta = Except.ok u := by
    intro r hr
    rw [List.mem_singleton] at hr
    subst hr
    exact ⟨⟨31, rfl⟩, ⟨{ raw := "gemini://example.org/new.gmi" }, by decide⟩⟩
  refine ⟨hreds, rfl, by decide, ?_⟩
  exact C1_redirect_chain_success demoTryFrom demoParseGemtext
    [demoRedirectResponse] demoUrl demoSuccessResponse 20 ("# Hello")
    hreds rfl (by decide)

/-- C3: a response with Redirect status whose meta text the url parser
rejects makes make_request abort with the panic of the unwrap at src/main.rs
line 277 after that single request, and a panic is not a Failure result, so
no Failure outcome is returned for such input. -/
theorem C3_redirect_bad_meta_panics (tf : String → Except String Url)
    (parse : String → List GemtextNode) (r : Response)
    (rest : List (Except String Response)) (url : Url) (k : Nat) (e : String)
    (h1 : r.status = StatusCode.redirect k) (h2 : tf r.meta = Except.error e) :
    make_request tf parse (Except.ok r :: rest) url = (FetchResult.panic, 1) ∧
    ∀ m n, make_request tf parse (Except.ok r :: rest) url ≠
      (FetchResult.failure m, n) := by
  have h : make_request tf parse (Except.ok r :: rest) url = (FetchResult.panic, 1) := by
    simp [make_request, h1, h2]
  refine ⟨h, ?_⟩
  intro m n hc
  rw [h] at hc
  simp at hc

/-- Witness for C3 at a concrete redirect whose meta lacks a scheme. -/
theorem C3_redirect_bad_meta_panics_witness :
    demoBadMetaResponse.status = StatusCode.redirect 31 ∧
    demoTryFrom demoBadMetaResponse.meta = Except.error ("url must have a scheme") ∧
    make_request demoTryFrom demoParseGemtext [Except.ok demoBadMetaResponse] demoUrl =
      (FetchResult.panic, 1) := by
  refine ⟨rfl, by decide, ?_⟩
  exact (C3_redirect_bad_meta_panics demoTryFrom demoParseGemtext
    demoBadMetaResponse [] demoUrl 31 ("url must have a scheme")
    rfl (by decide)).1

/-- C8: a response whose status is neither Success nor Redirect makes
make_request return the unknown-status Failure after exactly one request,
whatever responses would have followed; and a Success response whose payload
is not valid UTF-8 makes it return the text-formatting Failure after exactly
one request, again with no retry. -/
theorem C8_failure_no_retry (tf : String → Except String Url)
    (parse : String → List GemtextNode) (r : Response)
    (rest : List (Except String Response)) (url : Url) :
    (∀ dbg, r.status = StatusCode.other dbg →
      make_request tf parse (Except.ok r :: rest) url =
        (FetchResult.failure ("Error: unknown status code: " ++ dbg), 1)) ∧
    (∀ k e, r.status = StatusCode.success k → from_utf8 r.data = Except.error e →
      make_request tf parse (Except.ok r :: rest) url =
        (FetchResult.failure ("Text Formatting Error: " ++ e), 1)) := by
  constructor
  · intro dbg h
    simp [make_request, h]
  · intro k e h hd
    simp [make_request, h, hd]

/-- Witness for C8: a NotFound-style status answered by a Failure with its
debug text, and a Success payload holding one stray continuation byte
answered by the text formatting Failure, both regardless of a further queued
response and both after one request. -/
theorem C8_failure_no_retry_witness :
    demoOtherResponse.status = StatusCode.other ("NotFound(51)") ∧
    from_utf8 demoBadUtf8Response.data =
      Except.error ("invalid utf-8 sequence of 1 bytes from index 0") ∧
    make_request demoTryFrom demoParseGemtext
      [Except.ok demoOtherResponse, Except.ok demoSuccessResponse] demoUrl =
      (FetchResult.failure ("Error: unknown status code: " ++ "NotFound(51)"), 1) ∧
    make_request demoTryFrom demoParseGemtext
      [Except.ok demoBadUtf8Response, Except.ok demoSuccessResponse] demoUrl =
      (FetchResult.failure
        ("Text Formatting Error: " ++ "invalid utf-8 sequence of 1 bytes from index 0"), 1) := by
  refine ⟨rfl, by decide, ?_, ?_⟩
  · exact (C8_failure_no_retry demoTryFrom demoParseGemtext
      demoOtherResponse [Except.ok demoSuccessResponse] demoUrl).1 ("NotFound(51)") rfl
  · exact (C8_failure_no_retry demoTryFrom demoParseGemtext
      demoBadUtf8Response [Except.ok demoSuccessResponse] demoUrl).2 20
      ("invalid utf-8 sequence of 1 bytes from index 0") rfl (by decide)

/-- C2 counterexample: the context path points at a directory (its last
segment has no file suffix), yet resolving the relative target drops the
terminal context segment, because the code tests the extension of the target,
not of the context: the claimed no-drop result differs from the computed
one. -/
theorem C2_dir_context_counterexample :
    (PathBuf.fromString ("/docs/sub")).extension = none ∧
    resolveRelativePath ("/docs/sub") ("page.gmi") = "/docs/page.gmi" ∧
    resolveRelativePath ("/docs/sub") ("page.gmi") ≠ "/docs/sub/page.gmi" := by
  decide

/-- C2 amended: for a non-absolute relative target resolved against a context
path with at least one segment, the terminal context segment is dropped
before appending the target if and only if the target itself has the gmi
document suffix; the suffix of the context path is irrelevant. -/
theorem C2_drop_iff_target_doc (ctx r : String)
    (habs : (PathBuf.fromString r).absolute = false)
    (hne : (PathBuf.fromString ctx).segments ≠ []) :
    (resolveRelativePathBuf ctx r).segments =
      (if (PathBuf.fromString r).extension = some ("gmi")
        then (PathBuf.fromString ctx).segments.dropLast
        else (PathBuf.fromString ctx).segments) ++ (PathBuf.fromString r).segments ∧
    ((resolveRelativePathBuf ctx r).segments =
        (PathBuf.fromString ctx).segments.dropLast ++ (PathBuf.fromString r).segments ↔
      (PathBuf.fromString r).extension = some ("gmi")) := by
  have h1 : (resolveRelativePathBuf ctx r).segments =
      (if (PathBuf.fromString r).extension = some ("gmi")
        then (PathBuf.fromString ctx).segments.dropLast
        else (PathBuf.fromString ctx).segments) ++ (PathBuf.fromString r).segments := by
    by_cases hext : (PathBuf.fromString r).extension = some ("gmi") <;>
      simp [resolveRelativePathBuf, habs, PathBuf.push, PathBuf.pop, hext]
  refine ⟨h1, ?_⟩
  by_cases hext : (PathBuf.fromString r).extension = some ("gmi")
  · simp only [hext, if_pos] at h1
    simp [hext, h1]
  · simp only [hext, if_neg, ite_false] at h1
    simp only [hext, iff_false]
    rw [h1]
    intro hcontra
    have hlen := congrArg List.length hcontra
    have hpos : 0 < (PathBuf.fromString ctx).segments.length := List.length_pos.mpr hne
    simp only [List.length_append, List.length_dropLast] at hlen
    omega

/-- Witness for C2 amended at a context that is itself a document and a
target with the document suffix. -/
theorem C2_drop_iff_target_doc_witness :
    (PathBuf.fromString ("c.gmi")).absolute = false ∧
    (PathBuf.fromString ("/a/b.gmi")).segments ≠ [] ∧
    ((resolveRelativePathBuf ("/a/b.gmi") ("c.gmi")).segments =
        (PathBuf.fromString ("/a/b.gmi")).segments.dropLast ++
          (PathBuf.fromString ("c.gmi")).segments ↔
      (PathBuf.fromString ("c.gmi")).extension = some ("gmi")) := by
  refine ⟨by decide, by decide, ?_⟩
  exact (C2_drop_iff_target_doc ("/a/b.gmi") ("c.gmi") (by decide) (by decide)).2

/-- C4 counterexample: a delivered Failure outcome is observed by the first
poll, yet get_content returns none for it (it is routed to the error field),
so the poll does not return some of the outcome regardless of whether the
outcome is a success or a failure. -/
theorem C4_failure_poll_counterexample :
    (Gbrowse.get_content { demoGbrowse with chan := [Except.error ("Request Error: boom")] }).fst =
      none ∧
    (Gbrowse.get_content { demoGbrowse with chan := [Except.error ("Request Error: boom")] }).snd.error =
      some ("Request Error: boom") := by
  decide

/-- C4 amended: while nothing has been delivered and a sender is alive, every
poll returns none and changes nothing; the first poll that observes a
delivered result consumes it exactly once, returning some content for a
success and returning none while writing the message to the error field for
a failure; and once the single delivered result is consumed, every further
poll returns none and leaves the state unchanged. -/
theorem C4_poll_protocol (s : Gbrowse) :
    (s.chan = [] → s.senderAlive = true → Gbrowse.get_content s = (none, s)) ∧
    (∀ c rest, s.chan = Except.ok c :: rest →
      Gbrowse.get_content s = (some c, { s with chan := rest, loading := false })) ∧
    (∀ e rest, s.chan = Except.error e :: rest →
      Gbrowse.get_content s =
        (none, { s with chan := rest, error := some e, loading := false })) ∧
    (∀ m, s.chan = [m] → s.senderAlive = true →
      Gbrowse.get_content (Gbrowse.get_content s).snd =
        (none, (Gbrowse.get_content s).snd)) := by
  refine ⟨?_, ?_, ?_, ?_⟩
  · intro hc hs
    simp [Gbrowse.get_content, hc, hs]
  · intro c rest hc
    simp [Gbrowse.get_content, hc]
  · intro e rest hc
    simp [Gbrowse.get_content, hc]
  · intro m hc hs
    cases m <;> simp [Gbrowse.get_content, hc, hs]

/-- Witness for C4 at a state holding one delivered success result. -/
theorem C4_poll_protocol_witness :
    ({ demoGbrowse with chan := [Except.ok [GemtextNode.Text ("hi")]] } : Gbrowse).chan =
      Except.ok [GemtextNode.Text ("hi")] :: [] ∧
    Gbrowse.get_content { demoGbrowse with chan := [Except.ok [GemtextNode.Text ("hi")]] } =
      (some [GemtextNode.Text ("hi")], { demoGbrowse with chan := [], loading := false }) := by
  refine ⟨rfl, ?_⟩
  exact (C4_poll_protocol
    { demoGbrowse with chan := [Except.ok [GemtextNode.Text ("hi")]] }).2.1
    [GemtextNode.Text ("hi")] [] rfl

/-- C5 counterexample: a non-qualified target clicked while the current url
text itself does not parse makes the link handler abort with the panic of the
unwrap at src/main.rs line 201, not with any reported resolution error. -/
theorem C5_no_context_counterexample :
    demoUrlParse ("page.gmi") = none ∧
    demoUrlParse ("not a url") = none ∧
    link_click demoUrlParse { demoGbrowse with url := "not a url" } ("page.gmi") =
      ClickOutcome.panic := by
  decide

/-- C5 amended: a non-qualified raw address submitted through change_site is
reported recoverably, setting only the error message next to the already
performed clearing of content and overwrite of the url field, with no history
push, no loading change and no spawned worker; but a non-qualified link
target resolved in the link handler while the current url text has no usable
parse aborts with a panic instead of reporting a resolution error. -/
theorem C5_unqualified_resolution (tf : String → Except String Url)
    (up : String → Option UrlRec) (s : Gbrowse) (r e : String) (mb : Bool)
    (h1 : tf r = Except.error e) (h2 : up r = none) (h3 : up s.url = none) :
    Gbrowse.change_site tf s r mb =
      { s with
        content := none
        url := r
        error := some ("Incorrectly formatted url: " ++ e) } ∧
    link_click up s r = ClickOutcome.panic := by
  refine ⟨change_site_eq_error tf s r mb e h1, ?_⟩
  simp [link_click, h2, h3]

/-- Witness for C5 at the demo parsers and a state whose url text does not
parse. -/
theorem C5_unqualified_resolution_witness :
    demoTryFrom ("page.gmi") = Except.error ("url must have a scheme") ∧
    demoUrlParse ("page.gmi") = none ∧
    demoUrlParse ("not a url") = none ∧
    link_click demoUrlParse { demoGbrowse with url := "not a url" } ("page.gmi") =
      ClickOutcome.panic := by
  refine ⟨by decide, by decide, by decide, ?_⟩
  exact (C5_unqualified_resolution demoTryFrom demoUrlParse
    { demoGbrowse with url := "not a url" } ("page.gmi")
    ("url must have a scheme") false (by decide) (by decide) (by decide)).2

/-- C6: starting from a state whose history ends with the current address,
navigating to a parseable address a with moving_back unset and then clicking
back restores both the history and the current address that were in place
immediately before the push; and a navigation with moving_back set never
pushes onto the history, for any state and target. -/
theorem C6_history_push_pop (tf : String → Except String Url) (s : Gbrowse)
    (a : String) (ua ub : Url) (ha : tf a = Except.ok ua)
    (hu : tf s.url = Except.ok ub) (hne : s.sites ≠ [])
    (hlast : s.sites.getLast? = some s.url) :
    (Gbrowse.back_click tf (Gbrowse.change_site tf s a false)).sites = s.sites ∧
    (Gbrowse.back_click tf (Gbrowse.change_site tf s a false)).url = s.url ∧
    ∀ (t : Gbrowse) (b : String), (Gbrowse.change_site tf t b true).sites = t.sites := by
  have hback : ∀ (t : Gbrowse) (b : String),
      (Gbrowse.change_site tf t b true).sites = t.sites := by
    intro t b
    cases htb : tf b with
    | error e => rw [change_site_eq_error tf t b true e htb]
    | ok u => rw [change_site_eq_ok_back tf t b u htb]
  have hlen : 1 < (s.sites ++ [a]).length := by
    have hpos : 0 < s.sites.length := List.length_pos.mpr hne
    simp only [List.length_append, List.length_cons, List.length_nil]
    omega
  have hpos : 0 < s.sites.length := List.length_pos.mpr hne
  rw [change_site_eq_ok_fwd tf s a ua ha]
  refine ⟨?_, ?_, hback⟩ <;>
    simp [Gbrowse.back_click, hlen, List.dropLast_concat, hlast,
      Gbrowse.change_site, hu, hpos]

/-- Witness for C6 at a two-entry scenario over the demo parser. -/
theorem C6_history_push_pop_witness :
    demoTryFrom ("gemini://example.org/b.gmi") =
      Except.ok { raw := "gemini://example.org/b.gmi" } ∧
    demoTryFrom demoGbrowse.url = Except.ok { raw := "gemini://example.org/" } ∧
    demoGbrowse.sites ≠ [] ∧
    demoGbrowse.sites.getLast? = some demoGbrowse.url ∧
    (Gbrowse.back_click demoTryFrom
      (Gbrowse.change_site demoTryFrom demoGbrowse ("gemini://example.org/b.gmi") false)).sites =
      demoGbrowse.sites ∧
    (Gbrowse.back_click demoTryFrom
      (Gbrowse.change_site demoTryFrom demoGbrowse ("gemini://example.org/b.gmi") false)).url =
      demoGbrowse.url := by
  have h := C6_history_push_pop demoTryFrom demoGbrowse ("gemini://example.org/b.gmi")
    { raw := "gemini://example.org/b.gmi" } { raw := "gemini://example.org/" }
    (by decide) (by decide) (by decide) (by decide)
  exact ⟨by decide, by decide, by decide, by decide, h.1, h.2.1⟩

/-- C7: a target that already parses as a fully qualified address is used
directly: the click outcome does not depend on the session state (the context
is ignored), and whatever the outcome is, it carries the target text
unchanged (navigate for the gemini scheme, external open for web schemes,
nothing for any other scheme). -/
theorem C7_qualified_identity (up : String → Option UrlRec) (s t : Gbrowse)
    (a : String) (u : UrlRec) (h : up a = some u) :
    link_click up s a = link_click up t a ∧
    (link_click up s a = ClickOutcome.navigate a ∨
      link_click up s a = ClickOutcome.openExternal a ∨
      link_click up s a = ClickOutcome.noop) := by
  constructor
  · simp [link_click, h]
  · simp only [link_click, h]
    split_ifs <;> simp

/-- Witness for C7 at a qualified gemini target and two different states. -/
theorem C7_qualified_identity_witness :
    demoUrlParse ("gemini://example.org/docs/page.gmi") =
      some { scheme := "gemini", host := "example.org", path := "/docs/page.gmi" } ∧
    link_click demoUrlParse demoGbrowse ("gemini://example.org/docs/page.gmi") =
      link_click demoUrlParse { demoGbrowse with url := "not a url" }
        ("gemini://example.org/docs/page.gmi") ∧
    (link_click demoUrlParse demoGbrowse ("gemini://example.org/docs/page.gmi") =
        ClickOutcome.navigate ("gemini://example.org/docs/page.gmi") ∨
      link_click demoUrlParse demoGbrowse ("gemini://example.org/docs/page.gmi") =
        ClickOutcome.openExternal ("gemini://example.org/docs/page.gmi") ∨
      link_click demoUrlParse demoGbrowse ("gemini://example.org/docs/page.gmi") =
        ClickOutcome.noop) := by
  have h := C7_qualified_identity demoUrlParse demoGbrowse
    { demoGbrowse with url := "not a url" } ("gemini://example.org/docs/page.gmi")
    { scheme := "gemini", host := "example.org", path := "/docs/page.gmi" } (by decide)
  exact ⟨by decide, h.1, h.2⟩

/-- C9: when the raw address text fails to parse, change_site leaves the
history, the loading flag, the spawned workers and the channel unchanged and
sets the error message, but it is not atomic: the final state shows that
content was cleared and the url field overwritten with the offending text
before the parse was attempted. -/
theorem C9_parse_failure_frame (tf : String → Except String Url) (s : Gbrowse)
    (raw e : String) (mb : Bool) (h : tf raw = Except.error e) :
    (Gbrowse.change_site tf s raw mb).sites = s.sites ∧
    (Gbrowse.change_site tf s raw mb).loading = s.loading ∧
    (Gbrowse.change_site tf s raw mb).spawned = s.spawned ∧
    (Gbrowse.change_site tf s raw mb).chan = s.chan ∧
    (Gbrowse.change_site tf s raw mb).content = none ∧
    (Gbrowse.change_site tf s raw mb).url = raw ∧
    (Gbrowse.change_site tf s raw mb).error =
      some ("Incorrectly formatted url: " ++ e) := by
  rw [change_site_eq_error tf s raw mb e h]
  exact ⟨rfl, rfl, rfl, rfl, rfl, rfl, rfl⟩

/-- Witness for C9 at the demo parser and an unparseable raw text. -/
theorem C9_parse_failure_frame_witness :
    demoTryFrom ("not a url") = Except.error ("url must have a scheme") ∧
    (Gbrowse.change_site demoTryFrom demoGbrowse ("not a url") false).sites =
      demoGbrowse.sites ∧
    (Gbrowse.change_site demoTryFrom demoGbrowse ("not a url") false).loading =
      demoGbrowse.loading ∧
    (Gbrowse.change_site demoTryFrom demoGbrowse ("not a url") false).url = "not a url" ∧
    (Gbrowse.change_site demoTryFrom demoGbrowse ("not a url") false).error =
      some ("Incorrectly formatted url: " ++ "url must have a scheme") := by
  have h := C9_parse_failure_frame demoTryFrom demoGbrowse ("not a url")
    ("url must have a scheme") false (by decide)
  exact ⟨by decide, h.1, h.2.1, h.2.2.2.2.2.1, h.2.2.2.2.2.2⟩

/-- C10: the invariant that every text stored in the history was accepted by
the url parser when it was pushed holds initially and is preserved by every
operation: a fresh session has an empty history, change_site pushes only the
raw text whose parse just succeeded, the back click only removes, and polling
never touches the history. -/
theorem C10_sites_always_parse (tf : String → Except String Url) :
    (∀ page, UrlInv tf (Gbrowse.new page)) ∧
    (∀ s raw mb, UrlInv tf s → UrlInv tf (Gbrowse.change_site tf s raw mb)) ∧
    (∀ s, UrlInv tf s → UrlInv tf (Gbrowse.back_click tf s)) ∧
    (∀ s, UrlInv tf s → UrlInv tf (Gbrowse.get_content s).snd) := by
  refine ⟨?_, ?_, ?_, ?_⟩
  · intro page x hx
    simp [Gbrowse.new] at hx
  · intro s raw mb h
    exact urlInv_change_site tf s raw mb h
  · intro s h
    unfold Gbrowse.back_click
    by_cases hlen : 1 < s.sites.length
    · simp only [hlen, if_true]
      have h2 : UrlInv tf { s with sites := s.sites.dropLast } := by
        intro x hx
        exact h x ((List.dropLast_sublist s.sites).subset hx)
      cases hg : ({ s with sites := s.sites.dropLast } : Gbrowse).sites.getLast? with
      | none => simpa [hg] using h2
      | some before => simpa [hg] using urlInv_change_site tf _ before true h2
    · simpa [hlen] using h
  · intro s h x hx
    rw [get_content_sites_eq s] at hx
    exact h x hx

/-- Witness for C10: the invariant holds at the demo state and is carried
through a navigation over the demo parser. -/
theorem C10_sites_always_parse_witness :
    UrlInv demoTryFrom demoGbrowse ∧
    UrlInv demoTryFrom
      (Gbrowse.change_site demoTryFrom demoGbrowse ("gemini://example.org/b.gmi") false) := by
  have hinv : UrlInv demoTryFrom demoGbrowse := by
    intro x hx
    rw [show demoGbrowse.sites = ["gemini://example.org/"] from rfl] at hx
    rw [List.mem_singleton] at hx
    subst hx
    exact ⟨{ raw := "gemini://example.org/" }, by decide⟩
  exact ⟨hinv, (C10_sites_always_parse demoTryFrom).2.1 demoGbrowse
    ("gemini://example.org/b.gmi") false hinv⟩
